import Mathlib

/-!
Verification of the Qubit_financial scoring pipeline (src/functions_NEW.py).

The Python source is shallowly embedded: dictionaries become structures with
Option-valued fields (a Python None is Option.none, a missing key is handled
by the same getD defaults the source uses), floats become rationals, a raised
exception becomes an Except.error, and the MongoDB collection backing the
cache becomes an explicit list of documents threaded through get_or_fetch.
Network producers (fetch_func closures) are modelled by the value they would
return: some payload for a truthy response, none for an empty/null/falsy one.
-/

namespace QubitFinancial

/-! ## Fetch cache (get_or_fetch, src/functions_NEW.py lines 35-54)

A Mongo collection is a list of documents.  Each document stores the filter
key, the cached payload and the createdAt timestamp.  TTL expiry in MongoDB
is carried out by a background sweep over the createdAt field, registered by
the create_index call; the reader itself performs no expiry check.  The
sweep is modelled separately by ttlSweep.  A possible failure of the write
step (insert_one, followed by create_index) is modelled by the insertOk
flag: when it is false, the write raises, and — since the source wraps the
write in no try/except — the exception propagates out of get_or_fetch,
modelled as Except.error.  The third component of a successful result
records whether fetch_func was invoked during the call. -/

/-- One document of a cache collection: filter key, payload, createdAt. -/
structure CacheDoc (α : Type) where
  key : String
  data : α
  createdAt : Nat
  deriving Repr, DecidableEq

/-- collection.find_one(key_filter): the first stored document whose key
matches the filter.  Faithful to the source: no expiry check is made. -/
def find_one {α : Type} (store : List (CacheDoc α)) (key : String) :
    Option (CacheDoc α) :=
  store.find? (fun d => d.key == key)

/-- collection.insert_one({**key_filter, "data": data, "createdAt": now}). -/
def insert_one {α : Type} (store : List (CacheDoc α)) (key : String)
    (d : α) (now : Nat) : List (CacheDoc α) :=
  store ++ [{ key := key, data := d, createdAt := now }]

/-- get_or_fetch(collection_name, key_filter, fetch_func, ttl_seconds):
look the key up; on a hit return the stored payload; on a miss invoke the
producer, persist a truthy payload (raising if the store write fails) and
return it; return a falsy payload without persisting it.  The result is
(payload, updated collection, whether the producer was invoked). -/
def get_or_fetch {α : Type} (store : List (CacheDoc α)) (key : String)
    (producer : Option α) (now : Nat) (insertOk : Bool) :
    Except Unit (Option α × List (CacheDoc α) × Bool) :=
  match find_one store key with
  | some doc => .ok (some doc.data, store, false)
  | none =>
      match producer with
      | some d =>
          if insertOk then .ok (some d, insert_one store key d now, true)
          else .error ()
      | none => .ok (none, store, true)

/-- Whether a get_or_fetch call invoked its producer (a raised write failure
happens only after the producer has been invoked). -/
def producerCalled {α : Type}
    (r : Except Unit (Option α × List (CacheDoc α) × Bool)) : Bool :=
  match r with
  | .ok (_, _, b) => b
  | .error _ => true

/-- The store-side background TTL sweep registered by create_index: it
removes every document whose age at time now has reached ttl seconds. -/
def ttlSweep {α : Type} (store : List (CacheDoc α)) (now ttl : Nat) :
    List (CacheDoc α) :=
  store.filter (fun d => decide (now < d.createdAt + ttl))

lemma find_one_insert_self {α : Type} (store : List (CacheDoc α))
    (key : String) (d : α) (now : Nat) (h : find_one store key = none) :
    find_one (insert_one store key d now) key =
      some { key := key, data := d, createdAt := now } := by
  unfold find_one insert_one at *
  induction store with
  | nil => simp
  | cons a t ih =>
      rw [List.cons_append]
      rw [List.find?] at h ⊢
      cases hk : (a.key == key) with
      | true => rw [hk] at h; exact absurd h (by simp)
      | false =>
          rw [hk] at h
          exact ih h

/-! ## Cache theorems (claims C6, C7, C8) -/

/-- C6 (counterexample): the claim says a freshly fetched payload is
returned even if the store write fails.  On a cache miss with a truthy
payload and a failing write, the source calls insert_one outside any
try/except, so the write failure propagates out of get_or_fetch and the
payload is not returned: the call results in a raised fault, not an ok
result carrying the payload. -/
theorem C6_insert_failure_loses_payload :
    get_or_fetch ([] : List (CacheDoc Nat)) "k" (some 1) 0 false =
      Except.error () := by
  rfl

/-- C6 (amended): on a cache miss with a non-empty payload, get_or_fetch
returns the payload when the store write succeeds; when the store write
fails, the write failure propagates to the caller and the payload is not
returned. -/
theorem C6_miss_payload_returned_iff_write_succeeds {α : Type}
    (store : List (CacheDoc α)) (key : String) (d : α) (now : Nat)
    (h : find_one store key = none) :
    get_or_fetch store key (some d) now true =
      .ok (some d, insert_one store key d now, true) ∧
    get_or_fetch store key (some d) now false = .error () := by
  constructor
  · simp [get_or_fetch, h]
  · simp [get_or_fetch, h]

/-- Witness for C6_miss_payload_returned_iff_write_succeeds at a concrete
empty store. -/
theorem C6_miss_payload_returned_iff_write_succeeds_witness :
    get_or_fetch ([] : List (CacheDoc Nat)) "k" (some 5) 7 true =
      .ok (some 5, insert_one [] "k" 5 7, true) ∧
    get_or_fetch ([] : List (CacheDoc Nat)) "k" (some 5) 7 false =
      .error () :=
  C6_miss_payload_returned_iff_write_succeeds [] "k" 5 7 rfl

/-- C7: on a cache miss, a falsy producer result is returned as-is with the
store unchanged (nothing cached), so any immediately following call with
the same key invokes the producer again; whereas once a truthy payload has
been cached, a second call for the same key invokes the producer zero
times and returns the same payload as the first call. -/
theorem C7_empty_not_cached_nonempty_cached {α : Type}
    (store : List (CacheDoc α)) (key : String) (now : Nat) (ok : Bool)
    (h : find_one store key = none) :
    (get_or_fetch store key none now ok = .ok (none, store, true) ∧
      ∀ (p : Option α) (now2 : Nat) (ok2 : Bool),
        producerCalled (get_or_fetch store key p now2 ok2) = true) ∧
    ∀ (d : α) (p2 : Option α) (now2 : Nat) (ok2 : Bool),
      get_or_fetch store key (some d) now true =
        .ok (some d, insert_one store key d now, true) ∧
      get_or_fetch (insert_one store key d now) key p2 now2 ok2 =
        .ok (some d, insert_one store key d now, false) := by
  refine ⟨⟨by simp [get_or_fetch, h], ?_⟩, ?_⟩
  · intro p now2 ok2
    cases p with
    | none => simp [get_or_fetch, producerCalled, h]
    | some d =>
        cases ok2 with
        | true => simp [get_or_fetch, producerCalled, h]
        | false => simp [get_or_fetch, producerCalled, h]
  · intro d p2 now2 ok2
    refine ⟨by simp [get_or_fetch, h], ?_⟩
    simp [get_or_fetch, find_one_insert_self store key d now h]

/-- Witness for C7_empty_not_cached_nonempty_cached at a concrete store:
an empty fetch is returned uncached and the retry still calls the
producer; a cached payload is served on the second call with no fetch. -/
theorem C7_empty_not_cached_nonempty_cached_witness :
    get_or_fetch ([] : List (CacheDoc Nat)) "k" none 0 true =
      .ok (none, [], true) ∧
    producerCalled (get_or_fetch ([] : List (CacheDoc Nat)) "k" (some 4) 1
      true) = true ∧
    get_or_fetch ([] : List (CacheDoc Nat)) "k" (some 4) 0 true =
      .ok (some 4, insert_one [] "k" 4 0, true) ∧
    get_or_fetch (insert_one [] "k" 4 0) "k" (some 9) 99 false =
      .ok (some 4, insert_one [] "k" 4 0, false) :=
  ⟨(C7_empty_not_cached_nonempty_cached [] "k" 0 true rfl).1.1,
    (C7_empty_not_cached_nonempty_cached [] "k" 0 true rfl).1.2 (some 4) 1
      true,
    ((C7_empty_not_cached_nonempty_cached [] "k" 0 true rfl).2 4 (some 9) 99
      false).1,
    ((C7_empty_not_cached_nonempty_cached [] "k" 0 true rfl).2 4 (some 9) 99
      false).2⟩

/-- C8 (counterexample): the claim says a lookup finding only an expired
entry invokes the producer and does not return the stale payload.  The
source's reader never inspects createdAt: with a single entry of age
100000 seconds under a TTL of 86400 seconds (so expired — the store sweep
would delete it), get_or_fetch returns the stale payload and does not
invoke the producer. -/
theorem C8_expired_entry_returned_stale :
    ttlSweep [{ key := "k", data := (1 : Nat), createdAt := 0 }] 100000 86400
        = [] ∧
    get_or_fetch [{ key := "k", data := (1 : Nat), createdAt := 0 }] "k"
        (some 2) 100000 true =
      .ok (some 1, [{ key := "k", data := 1, createdAt := 0 }], false) := by
  constructor
  · rfl
  · rfl

/-- C8 (amended): get_or_fetch itself performs no expiry check — any
physically present entry is returned with no producer call, whatever its
age; an entry is treated as absent only once the store's background TTL
sweep has removed it, after which the lookup does invoke the producer.
The sweep removes exactly the documents whose age has reached the TTL. -/
theorem C8_expiry_is_store_side_only {α : Type}
    (store : List (CacheDoc α)) (key : String) (p : Option α)
    (now : Nat) (ok : Bool) :
    (∀ doc, find_one store key = some doc →
      get_or_fetch store key p now ok = .ok (some doc.data, store, false)) ∧
    (∀ ttl, find_one (ttlSweep store now ttl) key = none →
      producerCalled (get_or_fetch (ttlSweep store now ttl) key p now ok)
        = true) ∧
    ∀ ttl doc, doc ∈ ttlSweep store now ttl → now < doc.createdAt + ttl := by
  refine ⟨?_, ?_, ?_⟩
  · intro doc hdoc
    simp [get_or_fetch, hdoc]
  · intro ttl hmiss
    cases p with
    | none => simp [get_or_fetch, producerCalled, hmiss]
    | some d =>
        cases ok with
        | true => simp [get_or_fetch, producerCalled, hmiss]
        | false => simp [get_or_fetch, producerCalled, hmiss]
  · intro ttl doc hmem
    have := List.of_mem_filter hmem
    simpa using this

/-- Witness for C8_expiry_is_store_side_only at a concrete store: a found
entry is returned as-is with no producer call, and after the sweep has
removed the (expired) entry the lookup does invoke the producer. -/
theorem C8_expiry_is_store_side_only_witness :
    get_or_fetch [{ key := "k", data := (3 : Nat), createdAt := 10 }] "k"
        (some 9) 20 true =
      .ok (some 3, [{ key := "k", data := (3 : Nat), createdAt := 10 }],
        false) ∧
    producerCalled
        (get_or_fetch
          (ttlSweep [{ key := "k", data := (3 : Nat), createdAt := 10 }]
            100000 86400) "k" (some 9) 100000 true) = true :=
  ⟨(C8_expiry_is_store_side_only
        [{ key := "k", data := (3 : Nat), createdAt := 10 }] "k" (some 9) 20
        true).1 { key := "k", data := 3, createdAt := 10 } rfl,
    (C8_expiry_is_store_side_only
        [{ key := "k", data := (3 : Nat), createdAt := 10 }] "k" (some 9)
        100000 true).2.1 86400 (by rfl)⟩

/-! ## Scoring engine (calculate_financial_score, src/functions_NEW.py
lines 221-310)

A scored row carries the 8 metric fields of a record in which every value
is numeric (the orchestrator only scores the focal company's record, whose
fields are always numeric, and peer records that survived the non-null
filter and the backfill).  pandas' per-column min/max over such a table is
the fold of min/max over the column values. -/

/-- One fully numeric row of the scored table: the 8 metric fields
Revenue Growth (%), Net Profit Margin (%), ROE (%), Debt-to-Equity,
Free Cash Flow (M), EPS, P/E Ratio, Current Ratio. -/
structure Row where
  revenueGrowth : ℚ
  netProfitMargin : ℚ
  roe : ℚ
  debtToEquity : ℚ
  freeCashFlow : ℚ
  eps : ℚ
  peR : ℚ
  currentR : ℚ
  deriving Repr, DecidableEq

/-- df[col].min() over a non-empty numeric column (the [] case is never
reached: the table always contains the focal company's row). -/
def colMin : List ℚ → ℚ
  | [] => 0
  | x :: xs => xs.foldl min x

/-- df[col].max() over a non-empty numeric column. -/
def colMax : List ℚ → ℚ
  | [] => 0
  | x :: xs => xs.foldl max x

/-- Per-row normalized sub-score of a POSITIVE (higher-is-better) column:
0.5 when max == min, else (value - min) / (max - min). -/
def subScorePos (col : List ℚ) (v : ℚ) : ℚ :=
  if colMax col = colMin col then 1 / 2
  else (v - colMin col) / (colMax col - colMin col)

/-- Per-row normalized sub-score of a NEGATIVE (lower-is-better) column:
0.5 when max == min, else (max - value) / (max - min). -/
def subScoreNeg (col : List ℚ) (v : ℚ) : ℚ :=
  if colMax col = colMin col then 1 / 2
  else (colMax col - v) / (colMax col - colMin col)

/-- One row's Financial Score over a table rows: the weighted sum of its 8
sub-scores with the source's fixed weights (Revenue Growth 0.2, Net Profit
Margin 0.15, ROE 0.2, Debt-to-Equity 0.15, Free Cash Flow 0.1, EPS 0.05,
P/E Ratio 0.1, Current Ratio 0.05).  POSITIVE columns are Revenue Growth,
Net Profit Margin, ROE, Free Cash Flow, EPS, Current Ratio; NEGATIVE
columns are Debt-to-Equity and P/E Ratio. -/
def rowScore (rows : List Row) (r : Row) : ℚ :=
  0.2 * subScorePos (rows.map Row.revenueGrowth) r.revenueGrowth
    + 0.15 * subScorePos (rows.map Row.netProfitMargin) r.netProfitMargin
    + 0.2 * subScorePos (rows.map Row.roe) r.roe
    + 0.15 * subScoreNeg (rows.map Row.debtToEquity) r.debtToEquity
    + 0.1 * subScorePos (rows.map Row.freeCashFlow) r.freeCashFlow
    + 0.05 * subScorePos (rows.map Row.eps) r.eps
    + 0.1 * subScoreNeg (rows.map Row.peR) r.peR
    + 0.05 * subScorePos (rows.map Row.currentR) r.currentR

/-- Python's round-half-to-even of a rational to an integer. -/
def roundHalfEven (x : ℚ) : ℤ :=
  if x - (⌊x⌋ : ℚ) < 1 / 2 then ⌊x⌋
  else if 1 / 2 < x - (⌊x⌋ : ℚ) then ⌊x⌋ + 1
  else if ⌊x⌋ % 2 = 0 then ⌊x⌋ else ⌊x⌋ + 1

/-- round(x, 4): round half-to-even at the fourth decimal place. -/
def round4 (x : ℚ) : ℚ :=
  (roundHalfEven (x * 10000) : ℚ) / 10000

/-- calculate_financial_score(company_data, sector_data): raises
ValueError when the company record or the peer list is missing/empty;
otherwise builds the table sector_data + [company_data], computes every
row's weighted sub-score sum, and returns the last row's (the focal
company's) Financial Score rounded to 4 decimal places.  In this typed
embedding the company record is present and every required column exists,
so the missing-column ValueErrors cannot fire. -/
def calculate_financial_score (company : Row) (sector : List Row) :
    Except String ℚ :=
  if sector.isEmpty then .error "Missing company or sector data"
  else .ok (round4 (rowScore (sector ++ [company]) company))

lemma foldl_min_le_init (xs : List ℚ) (a : ℚ) : xs.foldl min a ≤ a := by
  induction xs generalizing a with
  | nil => exact le_refl a
  | cons b t ih => exact le_trans (ih (min a b)) (min_le_left a b)

lemma foldl_min_le_mem (xs : List ℚ) (a x : ℚ) (hx : x ∈ xs) :
    xs.foldl min a ≤ x := by
  induction xs generalizing a with
  | nil => cases hx
  | cons b t ih =>
      rcases List.mem_cons.mp hx with h | h
      · subst h
        exact le_trans (foldl_min_le_init t (min a x)) (min_le_right a x)
      · exact ih (min a b) h

lemma le_foldl_max_init (xs : List ℚ) (a : ℚ) : a ≤ xs.foldl max a := by
  induction xs generalizing a with
  | nil => exact le_refl a
  | cons b t ih => exact le_trans (le_max_left a b) (ih (max a b))

lemma le_foldl_max_mem (xs : List ℚ) (a x : ℚ) (hx : x ∈ xs) :
    x ≤ xs.foldl max a := by
  induction xs generalizing a with
  | nil => cases hx
  | cons b t ih =>
      rcases List.mem_cons.mp hx with h | h
      · subst h
        exact le_trans (le_max_right a x) (le_foldl_max_init t (max a x))
      · exact ih (max a b) h

lemma colMin_le_of_mem {col : List ℚ} {x : ℚ} (hx : x ∈ col) :
    colMin col ≤ x := by
  cases col with
  | nil => cases hx
  | cons a t =>
      rcases List.mem_cons.mp hx with h | h
      · subst h; exact foldl_min_le_init t x
      · exact foldl_min_le_mem t a x h

lemma le_colMax_of_mem {col : List ℚ} {x : ℚ} (hx : x ∈ col) :
    x ≤ colMax col := by
  cases col with
  | nil => cases hx
  | cons a t =>
      rcases List.mem_cons.mp hx with h | h
      · subst h; exact le_foldl_max_init t x
      · exact le_foldl_max_mem t a x h

lemma subScorePos_bounds {col : List ℚ} {v : ℚ} (hv : v ∈ col) :
    0 ≤ subScorePos col v ∧ subScorePos col v ≤ 1 := by
  unfold subScorePos
  by_cases h : colMax col = colMin col
  · rw [if_pos h]; norm_num
  · rw [if_neg h]
    have hmin := colMin_le_of_mem hv
    have hmax := le_colMax_of_mem hv
    have hlt : colMin col < colMax col :=
      lt_of_le_of_ne (le_trans hmin hmax) (Ne.symm h)
    have hpos : 0 < colMax col - colMin col := by linarith
    constructor
    · exact div_nonneg (by linarith) (le_of_lt hpos)
    · rw [div_le_one hpos]; linarith

lemma subScoreNeg_bounds {col : List ℚ} {v : ℚ} (hv : v ∈ col) :
    0 ≤ subScoreNeg col v ∧ subScoreNeg col v ≤ 1 := by
  unfold subScoreNeg
  by_cases h : colMax col = colMin col
  · rw [if_pos h]; norm_num
  · rw [if_neg h]
    have hmin := colMin_le_of_mem hv
    have hmax := le_colMax_of_mem hv
    have hlt : colMin col < colMax col :=
      lt_of_le_of_ne (le_trans hmin hmax) (Ne.symm h)
    have hpos : 0 < colMax col - colMin col := by linarith
    constructor
    · exact div_nonneg (by linarith) (le_of_lt hpos)
    · rw [div_le_one hpos]; linarith

lemma foldl_min_all_eq (t : List ℚ) (a : ℚ) (h : ∀ x ∈ t, x = a) :
    t.foldl min a = a := by
  induction t with
  | nil => rfl
  | cons b s ih =>
      have hb : b = a := h b (List.mem_cons_self b s)
      rw [List.foldl, hb, min_self]
      exact ih fun x hx => h x (List.mem_cons_of_mem b hx)

lemma foldl_max_all_eq (t : List ℚ) (a : ℚ) (h : ∀ x ∈ t, x = a) :
    t.foldl max a = a := by
  induction t with
  | nil => rfl
  | cons b s ih =>
      have hb : b = a := h b (List.mem_cons_self b s)
      rw [List.foldl, hb, max_self]
      exact ih fun x hx => h x (List.mem_cons_of_mem b hx)

lemma colMin_all_eq {col : List ℚ} {a : ℚ} (hne : col ≠ [])
    (h : ∀ x ∈ col, x = a) : colMin col = a := by
  cases col with
  | nil => exact absurd rfl hne
  | cons b t =>
      have hb : b = a := h b (List.mem_cons_self b t)
      subst hb
      exact foldl_min_all_eq t b fun x hx => h x (List.mem_cons_of_mem b hx)

lemma colMax_all_eq {col : List ℚ} {a : ℚ} (hne : col ≠ [])
    (h : ∀ x ∈ col, x = a) : colMax col = a := by
  cases col with
  | nil => exact absurd rfl hne
  | cons b t =>
      have hb : b = a := h b (List.mem_cons_self b t)
      subst hb
      exact foldl_max_all_eq t b fun x hx => h x (List.mem_cons_of_mem b hx)

lemma roundHalfEven_bounds {y : ℚ} (n : ℤ) (h0 : 0 ≤ y) (h1 : y ≤ (n : ℚ)) :
    0 ≤ roundHalfEven y ∧ roundHalfEven y ≤ n := by
  have hf0 : 0 ≤ ⌊y⌋ := Int.floor_nonneg.mpr h0
  have hfn : ⌊y⌋ ≤ n := by
    have := Int.floor_le_floor h1
    simpa using this
  have hfy : (⌊y⌋ : ℚ) ≤ y := Int.floor_le y
  unfold roundHalfEven
  split_ifs with hlo hhi hev
  · exact ⟨hf0, hfn⟩
  · have hq : (⌊y⌋ : ℚ) + 1 / 2 < y := by linarith
    have hflt : (⌊y⌋ : ℚ) < (n : ℚ) := by linarith
    have : ⌊y⌋ < n := by exact_mod_cast hflt
    exact ⟨by omega, by omega⟩
  · exact ⟨hf0, hfn⟩
  · have heq : y - (⌊y⌋ : ℚ) = 1 / 2 := le_antisymm (not_lt.mp hhi)
      (not_lt.mp hlo)
    have hflt : (⌊y⌋ : ℚ) < (n : ℚ) := by linarith
    have : ⌊y⌋ < n := by exact_mod_cast hflt
    exact ⟨by omega, by omega⟩

lemma round4_bounds {x : ℚ} (h0 : 0 ≤ x) (h1 : x ≤ 1) :
    0 ≤ round4 x ∧ round4 x ≤ 1 := by
  have hb := roundHalfEven_bounds (y := x * 10000) 10000
    (by linarith) (by push_cast; linarith)
  unfold round4
  constructor
  · exact div_nonneg (by exact_mod_cast hb.1) (by norm_num)
  · rw [div_le_one (by norm_num)]
    exact_mod_cast hb.2

/-! ## Scoring theorems (claims C1, C2) -/

/-- C1: in calculate_financial_score, a metric column whose value is
identical across all rows (peers plus company) gives every row the
sub-score 0.5 exactly; a column whose max exceeds its min gives a POSITIVE
row the sub-score (value - min) / (max - min) and a NEGATIVE row the
sub-score (max - value) / (max - min). -/
theorem C1_degenerate_column_half_else_minmax (col : List ℚ) (a v : ℚ)
    (hne : col ≠ []) :
    ((∀ x ∈ col, x = a) →
      subScorePos col v = 1 / 2 ∧ subScoreNeg col v = 1 / 2) ∧
    (colMin col < colMax col →
      subScorePos col v = (v - colMin col) / (colMax col - colMin col) ∧
      subScoreNeg col v = (colMax col - v) / (colMax col - colMin col)) := by
  constructor
  · intro hall
    have hmin := colMin_all_eq hne hall
    have hmax := colMax_all_eq hne hall
    constructor
    · unfold subScorePos; rw [if_pos (by rw [hmin, hmax])]
    · unfold subScoreNeg; rw [if_pos (by rw [hmin, hmax])]
  · intro hlt
    have hne' : colMax col ≠ colMin col := ne_of_gt hlt
    constructor
    · unfold subScorePos; rw [if_neg hne']
    · unfold subScoreNeg; rw [if_neg hne']

/-- Witness for C1_degenerate_column_half_else_minmax: a constant column
scores 0.5 for both orientations; a spread column follows the min/max
formulas. -/
theorem C1_degenerate_column_half_else_minmax_witness :
    (subScorePos [(1 : ℚ), 1] 1 = 1 / 2 ∧
      subScoreNeg [(1 : ℚ), 1] 1 = 1 / 2) ∧
    (subScorePos [(0 : ℚ), 2] 2 =
        (2 - colMin [(0 : ℚ), 2]) / (colMax [(0 : ℚ), 2] - colMin [(0 : ℚ), 2]) ∧
      subScoreNeg [(0 : ℚ), 2] 2 =
        (colMax [(0 : ℚ), 2] - 2) / (colMax [(0 : ℚ), 2] - colMin [(0 : ℚ), 2])) :=
  ⟨(C1_degenerate_column_half_else_minmax [1, 1] 1 1 (by simp)).1
      (by intro x hx; rcases List.mem_cons.mp hx with h | h
          · exact h
          · simpa using h),
    (C1_degenerate_column_half_else_minmax [0, 2] 0 2 (by simp)).2
      (by norm_num [colMin, colMax])⟩

/-- C2: for a company record and a non-empty peer list with all-numeric
metric fields, each of the focal company's 8 per-column sub-scores lies in
[0, 1] (its raw value is in the column's min/max range, computed over
peers plus itself; a degenerate column gives 0.5), so the returned score —
the weighted sum with weights 0.2, 0.15, 0.2, 0.15, 0.1, 0.05, 0.1, 0.05
rounded to 4 decimal places — lies in [0, 1]. -/
theorem C2_company_score_in_unit_interval (company : Row)
    (peers : List Row) (h : peers ≠ []) :
    (0 ≤ subScorePos ((peers ++ [company]).map Row.revenueGrowth)
        company.revenueGrowth ∧
      subScorePos ((peers ++ [company]).map Row.revenueGrowth)
        company.revenueGrowth ≤ 1) ∧
    (0 ≤ subScorePos ((peers ++ [company]).map Row.netProfitMargin)
        company.netProfitMargin ∧
      subScorePos ((peers ++ [company]).map Row.netProfitMargin)
        company.netProfitMargin ≤ 1) ∧
    (0 ≤ subScorePos ((peers ++ [company]).map Row.roe) company.roe ∧
      subScorePos ((peers ++ [company]).map Row.roe) company.roe ≤ 1) ∧
    (0 ≤ subScoreNeg ((peers ++ [company]).map Row.debtToEquity)
        company.debtToEquity ∧
      subScoreNeg ((peers ++ [company]).map Row.debtToEquity)
        company.debtToEquity ≤ 1) ∧
    (0 ≤ subScorePos ((peers ++ [company]).map Row.freeCashFlow)
        company.freeCashFlow ∧
      subScorePos ((peers ++ [company]).map Row.freeCashFlow)
        company.freeCashFlow ≤ 1) ∧
    (0 ≤ subScorePos ((peers ++ [company]).map Row.eps) company.eps ∧
      subScorePos ((peers ++ [company]).map Row.eps) company.eps ≤ 1) ∧
    (0 ≤ subScoreNeg ((peers ++ [company]).map Row.peR) company.peR ∧
      subScoreNeg ((peers ++ [company]).map Row.peR) company.peR ≤ 1) ∧
    (0 ≤ subScorePos ((peers ++ [company]).map Row.currentR)
        company.currentR ∧
      subScorePos ((peers ++ [company]).map Row.currentR)
        company.currentR ≤ 1) ∧
    ∃ s, calculate_financial_score company peers = .ok s ∧
      0 ≤ s ∧ s ≤ 1 := by
  have hmem : company ∈ peers ++ [company] :=
    List.mem_append_right peers (List.mem_singleton.mpr rfl)
  have h1 := subScorePos_bounds
    (List.mem_map_of_mem Row.revenueGrowth hmem)
  have h2 := subScorePos_bounds
    (List.mem_map_of_mem Row.netProfitMargin hmem)
  have h3 := subScorePos_bounds (List.mem_map_of_mem Row.roe hmem)
  have h4 := subScoreNeg_bounds
    (List.mem_map_of_mem Row.debtToEquity hmem)
  have h5 := subScorePos_bounds
    (List.mem_map_of_mem Row.freeCashFlow hmem)
  have h6 := subScorePos_bounds (List.mem_map_of_mem Row.eps hmem)
  have h7 := subScoreNeg_bounds (List.mem_map_of_mem Row.peR hmem)
  have h8 := subScorePos_bounds (List.mem_map_of_mem Row.currentR hmem)
  have hrow0 : 0 ≤ rowScore (peers ++ [company]) company := by
    unfold rowScore
    linarith [h1.1, h2.1, h3.1, h4.1, h5.1, h6.1, h7.1, h8.1]
  have hrow1 : rowScore (peers ++ [company]) company ≤ 1 := by
    unfold rowScore
    linarith [h1.2, h2.2, h3.2, h4.2, h5.2, h6.2, h7.2, h8.2]
  have hround := round4_bounds hrow0 hrow1
  have hempty : peers.isEmpty = false := by
    cases peers with
    | nil => exact absurd rfl h
    | cons a t => rfl
  refine ⟨h1, h2, h3, h4, h5, h6, h7, h8,
    round4 (rowScore (peers ++ [company]) company), ?_, hround.1, hround.2⟩
  unfold calculate_financial_score
  rw [hempty]
  rfl

/-- Witness for C2_company_score_in_unit_interval: the one-peer scenario
of the specification (company dominating on every non-degenerate column),
whose concrete score the embedding also evaluates to 0.85. -/
theorem C2_company_score_in_unit_interval_witness :
    (∃ s, calculate_financial_score
        { revenueGrowth := 10, netProfitMargin := 20, roe := 15,
          debtToEquity := 0.5, freeCashFlow := 100, eps := 2, peR := 15,
          currentR := 1.5 }
        [{ revenueGrowth := 10, netProfitMargin := 10, roe := 10,
            debtToEquity := 1, freeCashFlow := 100, eps := 1, peR := 20,
            currentR := 1 }] = .ok s ∧ 0 ≤ s ∧ s ≤ 1) ∧
    calculate_financial_score
        { revenueGrowth := 10, netProfitMargin := 20, roe := 15,
          debtToEquity := 0.5, freeCashFlow := 100, eps := 2, peR := 15,
          currentR := 1.5 }
        [{ revenueGrowth := 10, netProfitMargin := 10, roe := 10,
            debtToEquity := 1, freeCashFlow := 100, eps := 1, peR := 20,
            currentR := 1 }] = .ok (0.85 : ℚ) :=
  ⟨(C2_company_score_in_unit_interval
      { revenueGrowth := 10, netProfitMargin := 20, roe := 15,
        debtToEquity := 0.5, freeCashFlow := 100, eps := 2, peR := 15,
        currentR := 1.5 }
      [{ revenueGrowth := 10, netProfitMargin := 10, roe := 10,
          debtToEquity := 1, freeCashFlow := 100, eps := 1, peR := 20,
          currentR := 1 }] (by simp)).2.2.2.2.2.2.2.2,
    by norm_num [calculate_financial_score, rowScore, subScorePos,
      subScoreNeg, colMin, colMax, round4, roundHalfEven, List.foldl]⟩

/-! ## Peer financials (fetch_peer_financials_batch, src/functions_NEW.py
lines 142-215)

The upstream quote and ratios-TTM endpoints are modelled by the first
record each returns for a symbol.  A field absent from the upstream JSON
is none.  The per-symbol cache ("peer_financials") is modelled
pass-through: on a miss get_or_fetch returns exactly what the fetch
closure produced, which is none when either endpoint response is
empty/null or an API error, and the processed record otherwise. -/

/-- First record of the quote endpoint response (the fields used). -/
structure Quote where
  eps : Option ℚ
  pe : Option ℚ
  deriving Repr, DecidableEq

/-- First record of the ratios-TTM endpoint response (the fields used). -/
structure RatioTTM where
  netProfitMarginTTM : Option ℚ
  returnOnEquityTTM : Option ℚ
  debtEquityRatioTTM : Option ℚ
  currentRatioTTM : Option ℚ
  deriving Repr, DecidableEq

/-- A peer record: the same 8 metric keys, each possibly None. -/
structure PeerRecord where
  revenueGrowth : Option ℚ
  netProfitMargin : Option ℚ
  roe : Option ℚ
  debtToEquity : Option ℚ
  freeCashFlow : Option ℚ
  eps : Option ℚ
  peR : Option ℚ
  currentR : Option ℚ
  deriving Repr, DecidableEq

/-- Python truthiness of an optional number: None and 0 are falsy. -/
def truthy : Option ℚ → Bool
  | none => false
  | some x => decide (x ≠ 0)

/-- The peer_data dictionary built inside the fetch closure: Revenue
Growth and Free Cash Flow are left None; Net Profit Margin and ROE are
scaled by 100 only when the raw TTM value is truthy (so a present 0 maps
to None); the other four fields are copied as-is (a present 0 stays 0). -/
def buildPeerData (quote : Quote) (rt : RatioTTM) : PeerRecord where
  revenueGrowth := none
  netProfitMargin :=
    if truthy rt.netProfitMarginTTM then
      some (rt.netProfitMarginTTM.getD 0 * 100)
    else none
  roe :=
    if truthy rt.returnOnEquityTTM then
      some (rt.returnOnEquityTTM.getD 0 * 100)
    else none
  debtToEquity := rt.debtEquityRatioTTM
  freeCashFlow := none
  eps := quote.eps
  peR := quote.pe
  currentR := rt.currentRatioTTM

/-- peer_data.get(field): dictionary lookup by column name. -/
def getField (p : PeerRecord) (f : String) : Option ℚ :=
  if f = "Revenue Growth (%)" then p.revenueGrowth
  else if f = "Net Profit Margin (%)" then p.netProfitMargin
  else if f = "ROE (%)" then p.roe
  else if f = "Debt-to-Equity" then p.debtToEquity
  else if f = "Free Cash Flow (M)" then p.freeCashFlow
  else if f = "EPS" then p.eps
  else if f = "P/E Ratio" then p.peR
  else if f = "Current Ratio" then p.currentR
  else none

/-- The 6 required peer fields checked before a record is kept. -/
def required_fields : List String :=
  ["Net Profit Margin (%)", "ROE (%)", "Debt-to-Equity", "EPS",
    "P/E Ratio", "Current Ratio"]

/-- missing_fields = [field for field in required_fields if
peer_data.get(field) is None]. -/
def missing_fields (p : PeerRecord) : List String :=
  required_fields.filter (fun f => (getField p f).isNone)

/-- fetch_peer_financials_batch(symbols): sequentially process symbols,
skipping dotted (non-US) symbols without fetching; for the rest, the
cache/fetch yields either nothing or the processed peer_data record, which
is appended to the result exactly when no required field is missing. -/
def fetch_peer_financials_batch
    (upstream : String → Option (Quote × RatioTTM)) :
    List String → List PeerRecord
  | [] => []
  | s :: rest =>
      if s.data.contains '.' then
        fetch_peer_financials_batch upstream rest
      else
        match upstream s with
        | none => fetch_peer_financials_batch upstream rest
        | some (q, r) =>
            if missing_fields (buildPeerData q r) = [] then
              buildPeerData q r :: fetch_peer_financials_batch upstream rest
            else
              fetch_peer_financials_batch upstream rest

lemma missing_fields_eq_nil_iff (p : PeerRecord) :
    missing_fields p = [] ↔
      (p.netProfitMargin ≠ none ∧ p.roe ≠ none ∧ p.debtToEquity ≠ none ∧
        p.eps ≠ none ∧ p.peR ≠ none ∧ p.currentR ≠ none) := by
  obtain ⟨rg, npm, roe, de, fcf, eps, pe, cr⟩ := p
  cases npm <;> cases roe <;> cases de <;> cases eps <;> cases pe <;>
    cases cr <;>
    simp [missing_fields, required_fields, getField]

lemma missing_fields_ignores_growth_fcf (p : PeerRecord)
    (x y : Option ℚ) :
    missing_fields { p with revenueGrowth := x, freeCashFlow := y } =
      missing_fields p := rfl

lemma batch_cons_nodot (upstream : String → Option (Quote × RatioTTM))
    (s : String) (q : Quote) (r : RatioTTM) (rest : List String)
    (hdot : s.data.contains '.' = false) (hup : upstream s = some (q, r)) :
    fetch_peer_financials_batch upstream (s :: rest) =
      (if missing_fields (buildPeerData q r) = [] then [buildPeerData q r]
        else []) ++ fetch_peer_financials_batch upstream rest := by
  have hdot2 : ('.' ∈ s.data) = False := by
    simpa using hdot
  by_cases hmf : missing_fields (buildPeerData q r) = []
  · simp [fetch_peer_financials_batch, hdot, hdot2, hup, hmf]
  · simp [fetch_peer_financials_batch, hdot, hdot2, hup, hmf]

/-- C5: fetch_peer_financials_batch keeps a fetched peer record exactly
when all 6 of Net Profit Margin, ROE, Debt-to-Equity, EPS, P/E Ratio and
Current Ratio are non-null; a null Revenue Growth or Free Cash Flow never
causes exclusion; and the returned list preserves the input symbol order
(each non-dotted symbol with upstream data contributes its record — kept
or dropped — ahead of the records of the remaining symbols). -/
theorem C5_keep_iff_required_six_order_preserved :
    (∀ p : PeerRecord, missing_fields p = [] ↔
      (p.netProfitMargin ≠ none ∧ p.roe ≠ none ∧ p.debtToEquity ≠ none ∧
        p.eps ≠ none ∧ p.peR ≠ none ∧ p.currentR ≠ none)) ∧
    (∀ (p : PeerRecord) (x y : Option ℚ),
      missing_fields { p with revenueGrowth := x, freeCashFlow := y } =
        missing_fields p) ∧
    ∀ (upstream : String → Option (Quote × RatioTTM)) (s : String)
      (q : Quote) (r : RatioTTM) (rest : List String),
      s.data.contains '.' = false → upstream s = some (q, r) →
      fetch_peer_financials_batch upstream (s :: rest) =
        (if missing_fields (buildPeerData q r) = [] then [buildPeerData q r]
          else []) ++ fetch_peer_financials_batch upstream rest :=
  ⟨missing_fields_eq_nil_iff, missing_fields_ignores_growth_fcf,
    fun upstream s q r rest hdot hup =>
      batch_cons_nodot upstream s q r rest hdot hup⟩

/-- Witness for C5_keep_iff_required_six_order_preserved: a complete
record (with null Revenue Growth and Free Cash Flow) is kept, and a record
lacking EPS is dropped, in input order. -/
theorem C5_keep_iff_required_six_order_preserved_witness :
    missing_fields
        { revenueGrowth := none, netProfitMargin := some 5, roe := some 5,
          debtToEquity := some 1, freeCashFlow := none, eps := some 1,
          peR := some 9, currentR := some 2 } = [] ∧
    missing_fields
        { revenueGrowth := some 3, netProfitMargin := some 5, roe := some 5,
          debtToEquity := some 1, freeCashFlow := some 4, eps := none,
          peR := some 9, currentR := some 2 } ≠ [] ∧
    fetch_peer_financials_batch
        (fun _ => some ({ eps := some 1, pe := some 9 },
          { netProfitMarginTTM := some 5, returnOnEquityTTM := some 5,
            debtEquityRatioTTM := some 1, currentRatioTTM := some 2 }))
        ["AAA", "BBB"] =
      (if missing_fields (buildPeerData { eps := some 1, pe := some 9 }
          { netProfitMarginTTM := some 5, returnOnEquityTTM := some 5,
            debtEquityRatioTTM := some 1, currentRatioTTM := some 2 }) = []
        then [buildPeerData { eps := some 1, pe := some 9 }
          { netProfitMarginTTM := some 5, returnOnEquityTTM := some 5,
            debtEquityRatioTTM := some 1, currentRatioTTM := some 2 }]
        else []) ++
        fetch_peer_financials_batch
          (fun _ => some ({ eps := some 1, pe := some 9 },
            { netProfitMarginTTM := some 5, returnOnEquityTTM := some 5,
              debtEquityRatioTTM := some 1, currentRatioTTM := some 2 }))
          ["BBB"] :=
  ⟨(C5_keep_iff_required_six_order_preserved.1
      { revenueGrowth := none, netProfitMargin := some 5, roe := some 5,
        debtToEquity := some 1, freeCashFlow := none, eps := some 1,
        peR := some 9, currentR := some 2 }).mpr
      (by simp),
    fun hcon => by
      have := (C5_keep_iff_required_six_order_preserved.1
        { revenueGrowth := some 3, netProfitMargin := some 5,
          roe := some 5, debtToEquity := some 1, freeCashFlow := some 4,
          eps := none, peR := some 9, currentR := some 2 }).mp hcon
      simp at this,
    C5_keep_iff_required_six_order_preserved.2.2
      (fun _ => some ({ eps := some 1, pe := some 9 },
        { netProfitMarginTTM := some 5, returnOnEquityTTM := some 5,
          debtEquityRatioTTM := some 1, currentRatioTTM := some 2 }))
      "AAA"
      { eps := some 1, pe := some 9 }
      { netProfitMarginTTM := some 5, returnOnEquityTTM := some 5,
        debtEquityRatioTTM := some 1, currentRatioTTM := some 2 }
      ["BBB"] (by rfl) rfl⟩

/-- C10: a peer whose fetched netProfitMarginTTM or returnOnEquityTTM is
exactly 0 gets that field set to null by the truthiness guard and is
dropped from the returned list, even though the upstream value was
present; a present 0 in Debt-to-Equity, Current Ratio, EPS or P/E Ratio
does not cause exclusion. -/
theorem C10_zero_margin_or_roe_dropped :
    (∀ (q : Quote) (r : RatioTTM), r.netProfitMarginTTM = some 0 →
      (buildPeerData q r).netProfitMargin = none) ∧
    (∀ (q : Quote) (r : RatioTTM), r.returnOnEquityTTM = some 0 →
      (buildPeerData q r).roe = none) ∧
    (∀ (upstream : String → Option (Quote × RatioTTM)) (s : String)
      (q : Quote) (r : RatioTTM) (rest : List String),
      s.data.contains '.' = false → upstream s = some (q, r) →
      (r.netProfitMarginTTM = some 0 ∨ r.returnOnEquityTTM = some 0) →
      fetch_peer_financials_batch upstream (s :: rest) =
        fetch_peer_financials_batch upstream rest) ∧
    ∀ (q : Quote) (r : RatioTTM) (a b : ℚ),
      r.netProfitMarginTTM = some a → a ≠ 0 →
      r.returnOnEquityTTM = some b → b ≠ 0 →
      r.debtEquityRatioTTM = some 0 → r.currentRatioTTM = some 0 →
      q.eps = some 0 → q.pe = some 0 →
      missing_fields (buildPeerData q r) = [] := by
  refine ⟨?_, ?_, ?_, ?_⟩
  · intro q r h
    simp [buildPeerData, h, truthy]
  · intro q r h
    simp [buildPeerData, h, truthy]
  · intro upstream s q r rest hdot hup hzero
    have hdrop : missing_fields (buildPeerData q r) ≠ [] := by
      intro hmf
      have hsix := (missing_fields_eq_nil_iff (buildPeerData q r)).mp hmf
      rcases hzero with h | h
      · exact hsix.1 (by simp [buildPeerData, h, truthy])
      · exact hsix.2.1 (by simp [buildPeerData, h, truthy])
    rw [batch_cons_nodot upstream s q r rest hdot hup, if_neg hdrop]
    rfl
  · intro q r a b hnpm ha hroe hb hde hcr heps hpe
    refine (missing_fields_eq_nil_iff (buildPeerData q r)).mpr ?_
    refine ⟨?_, ?_, ?_, ?_, ?_, ?_⟩
    · simp [buildPeerData, hnpm, truthy, ha]
    · simp [buildPeerData, hroe, truthy, hb]
    · simp [buildPeerData, hde]
    · simp [buildPeerData, heps]
    · simp [buildPeerData, hpe]
    · simp [buildPeerData, hcr]

/-- Witness for C10_zero_margin_or_roe_dropped: a peer whose upstream
net-profit-margin is 0 is dropped; a peer with zeros only in
Debt-to-Equity, Current Ratio, EPS and P/E Ratio is kept. -/
theorem C10_zero_margin_or_roe_dropped_witness :
    (buildPeerData { eps := some 1, pe := some 9 }
        { netProfitMarginTTM := some 0, returnOnEquityTTM := some 5,
          debtEquityRatioTTM := some 1,
          currentRatioTTM := some 2 }).netProfitMargin = none ∧
    fetch_peer_financials_batch
        (fun _ => some ({ eps := some 1, pe := some 9 },
          { netProfitMarginTTM := some 0, returnOnEquityTTM := some 5,
            debtEquityRatioTTM := some 1, currentRatioTTM := some 2 }))
        ["AAA"] =
      fetch_peer_financials_batch
        (fun _ => some ({ eps := some 1, pe := some 9 },
          { netProfitMarginTTM := some 0, returnOnEquityTTM := some 5,
            debtEquityRatioTTM := some 1, currentRatioTTM := some 2 }))
        [] ∧
    missing_fields (buildPeerData { eps := some 0, pe := some 0 }
        { netProfitMarginTTM := some 5, returnOnEquityTTM := some 5,
          debtEquityRatioTTM := some 0, currentRatioTTM := some 0 }) = [] :=
  ⟨C10_zero_margin_or_roe_dropped.1 { eps := some 1, pe := some 9 }
      { netProfitMarginTTM := some 0, returnOnEquityTTM := some 5,
        debtEquityRatioTTM := some 1, currentRatioTTM := some 2 } rfl,
    C10_zero_margin_or_roe_dropped.2.2.1
      (fun _ => some ({ eps := some 1, pe := some 9 },
        { netProfitMarginTTM := some 0, returnOnEquityTTM := some 5,
          debtEquityRatioTTM := some 1, currentRatioTTM := some 2 }))
      "AAA"
      { eps := some 1, pe := some 9 }
      { netProfitMarginTTM := some 0, returnOnEquityTTM := some 5,
        debtEquityRatioTTM := some 1, currentRatioTTM := some 2 }
      [] (by rfl) rfl (Or.inl rfl),
    C10_zero_margin_or_roe_dropped.2.2.2
      { eps := some 0, pe := some 0 }
      { netProfitMarginTTM := some 5, returnOnEquityTTM := some 5,
        debtEquityRatioTTM := some 0, currentRatioTTM := some 0 }
      5 5 rfl (by norm_num) rfl (by norm_num) rfl rfl rfl rfl⟩

/-! ## Orchestrator backfill (run_financial_analysis, src/functions_NEW.py
lines 350-353) -/

/-- The backfill loop: for each surviving peer record, overwrite Revenue
Growth (%) and Free Cash Flow (M) with the focal company's values. -/
def backfillPeers (c : Row) (peers : List PeerRecord) : List PeerRecord :=
  peers.map fun p =>
    { p with revenueGrowth := some c.revenueGrowth,
             freeCashFlow := some c.freeCashFlow }

/-- C4: after the backfill, every surviving peer record carries the focal
company's Revenue Growth and Free Cash Flow verbatim while its other six
fields are unchanged (position by position), so both columns of the
scored table — peer rows followed by the company row — are constant. -/
theorem C4_backfill_copies_company_growth_fcf (c : Row)
    (peers : List PeerRecord) :
    (∀ (i : Nat) (p : PeerRecord), peers[i]? = some p →
      ∃ q, (backfillPeers c peers)[i]? = some q ∧
        q.revenueGrowth = some c.revenueGrowth ∧
        q.freeCashFlow = some c.freeCashFlow ∧
        q.netProfitMargin = p.netProfitMargin ∧ q.roe = p.roe ∧
        q.debtToEquity = p.debtToEquity ∧ q.eps = p.eps ∧
        q.peR = p.peR ∧ q.currentR = p.currentR) ∧
    (∀ v ∈ (backfillPeers c peers).map PeerRecord.revenueGrowth ++
        [some c.revenueGrowth], v = some c.revenueGrowth) ∧
    (∀ v ∈ (backfillPeers c peers).map PeerRecord.freeCashFlow ++
        [some c.freeCashFlow], v = some c.freeCashFlow) := by
  refine ⟨?_, ?_, ?_⟩
  · intro i p hp
    refine ⟨{ p with revenueGrowth := some c.revenueGrowth,
                     freeCashFlow := some c.freeCashFlow },
      ?_, rfl, rfl, rfl, rfl, rfl, rfl, rfl, rfl⟩
    rw [backfillPeers, List.getElem?_map, hp]
    rfl
  · intro v hv
    rcases List.mem_append.mp hv with hv | hv
    · rcases List.mem_map.mp hv with ⟨q, hq, rfl⟩
      rcases List.mem_map.mp hq with ⟨p, hp, rfl⟩
      rfl
    · simpa using hv
  · intro v hv
    rcases List.mem_append.mp hv with hv | hv
    · rcases List.mem_map.mp hv with ⟨q, hq, rfl⟩
      rcases List.mem_map.mp hq with ⟨p, hp, rfl⟩
      rfl
    · simpa using hv

/-- Witness for C4_backfill_copies_company_growth_fcf: one concrete peer
record, backfilled from a concrete company record. -/
theorem C4_backfill_copies_company_growth_fcf_witness :
    ∃ q, (backfillPeers
        { revenueGrowth := 7, netProfitMargin := 20, roe := 15,
          debtToEquity := 1, freeCashFlow := 42, eps := 2, peR := 9,
          currentR := 3 }
        [{ revenueGrowth := none, netProfitMargin := some 5,
           roe := some 6, debtToEquity := some 1, freeCashFlow := none,
           eps := some 1, peR := some 8, currentR := some 2 }])[0]? =
        some q ∧
      q.revenueGrowth = some 7 ∧ q.freeCashFlow = some 42 ∧
      q.netProfitMargin = some 5 ∧ q.roe = some 6 ∧
      q.debtToEquity = some 1 ∧ q.eps = some 1 ∧ q.peR = some 8 ∧
      q.currentR = some 2 :=
  (C4_backfill_copies_company_growth_fcf
    { revenueGrowth := 7, netProfitMargin := 20, roe := 15,
      debtToEquity := 1, freeCashFlow := 42, eps := 2, peR := 9,
      currentR := 3 }
    [{ revenueGrowth := none, netProfitMargin := some 5,
       roe := some 6, debtToEquity := some 1, freeCashFlow := none,
       eps := some 1, peR := some 8, currentR := some 2 }]).1 0
    { revenueGrowth := none, netProfitMargin := some 5, roe := some 6,
      debtToEquity := some 1, freeCashFlow := none, eps := some 1,
      peR := some 8, currentR := some 2 } rfl

/-! ## Focal-company financials (fetch_main_company_financials,
src/functions_NEW.py lines 109-136)

The four upstream datasets are modelled by the lists of records they
return (each record keeping only the fields the source reads; a missing
JSON key is none).  The surrounding "company_financials" cache wrapper is
pass-through on a miss and does not change the computed record. -/

/-- One period of the income-statement response. -/
structure IncomeStmt where
  revenue : Option ℚ
  deriving Repr, DecidableEq

/-- One period of the cash-flow-statement response. -/
structure CashFlowStmt where
  freeCashFlow : Option ℚ
  deriving Repr, DecidableEq

/-- The revenue-growth expression of fetch_main_company_financials:
  ((income[0].get('revenue', 0) - income[1].get('revenue', 0))
      / income[1].get('revenue', 1)) * 100
      if income and len(income) > 1 else 0.
The .get defaults fire only when the 'revenue' KEY is absent (numerator
default 0, denominator default 1); a PRESENT zero revenue in income[1]
reaches the division as an actual 0 denominator and raises
ZeroDivisionError, modelled as Except.error. -/
def revenue_growth : List IncomeStmt → Except Unit ℚ
  | i0 :: i1 :: _ =>
      if i1.revenue.getD 1 = 0 then .error ()
      else .ok ((i0.revenue.getD 0 - i1.revenue.getD 0) /
        i1.revenue.getD 1 * 100)
  | _ => .ok 0

/-- fetch_main_company_financials: None when any of the four datasets is
empty; otherwise the 8-field record, with every missing sub-field
defaulted to 0, margins and ROE scaled by 100, and free cash flow in
millions.  A ZeroDivisionError from the revenue-growth expression
propagates. -/
def fetch_main_company_financials (income : List IncomeStmt)
    (cashflow : List CashFlowStmt) (ratios : List RatioTTM)
    (quotes : List Quote) : Except Unit (Option Row) :=
  match income, cashflow, ratios, quotes with
  | i0 :: irest, cf :: _, rt :: _, qt :: _ => do
      let rg ← revenue_growth (i0 :: irest)
      pure (some
        { revenueGrowth := rg,
          netProfitMargin := rt.netProfitMarginTTM.getD 0 * 100,
          roe := rt.returnOnEquityTTM.getD 0 * 100,
          debtToEquity := rt.debtEquityRatioTTM.getD 0,
          freeCashFlow := cf.freeCashFlow.getD 0 / 1000000,
          eps := qt.eps.getD 0,
          peR := qt.pe.getD 0,
          currentR := rt.currentRatioTTM.getD 0 })
  | _, _, _, _ => .ok none

/-- C3 (counterexample): with two income periods whose prior-period
revenue is present and exactly 0, the claim says the result is 0; the
source instead divides by that 0 and raises ZeroDivisionError. -/
theorem C3_zero_prior_revenue_raises :
    revenue_growth [{ revenue := some 110 }, { revenue := some 0 }] =
      .error () ∧
    revenue_growth [{ revenue := some 110 }, { revenue := some 0 }] ≠
      .ok (0 : ℚ) := by
  constructor
  · rfl
  · simp [revenue_growth]

/-- C3 (amended): with at least 2 income periods, Revenue Growth equals
(income[0].revenue - income[1].revenue) / income[1].revenue * 100 when the
prior-period revenue is present and non-zero; when the prior-period
revenue is present and zero the expression raises ZeroDivisionError (which
propagates out of fetch_main_company_financials) rather than yielding 0;
when the prior-period revenue key is absent the denominator defaults to 1
and the numerator term to 0; with fewer than 2 periods the result is 0. -/
theorem C3_revenue_growth_cases (i0 i1 : IncomeStmt)
    (rest : List IncomeStmt) :
    (∀ r0 r1 : ℚ, i0.revenue = some r0 → i1.revenue = some r1 →
      (r1 ≠ 0 →
        revenue_growth (i0 :: i1 :: rest) = .ok ((r0 - r1) / r1 * 100)) ∧
      (r1 = 0 → revenue_growth (i0 :: i1 :: rest) = .error ())) ∧
    (i1.revenue = none →
      revenue_growth (i0 :: i1 :: rest) =
        .ok ((i0.revenue.getD 0 - 0) / 1 * 100)) ∧
    (∀ i : IncomeStmt, revenue_growth [i] = .ok 0) ∧
    revenue_growth [] = .ok 0 ∧
    ∀ (cf : CashFlowStmt) (cfs : List CashFlowStmt) (rt : RatioTTM)
      (rts : List RatioTTM) (qt : Quote) (qts : List Quote),
      i1.revenue = some 0 →
      fetch_main_company_financials (i0 :: i1 :: rest) (cf :: cfs)
        (rt :: rts) (qt :: qts) = .error () := by
  refine ⟨?_, ?_, fun i => rfl, rfl, ?_⟩
  · intro r0 r1 h0 h1
    constructor
    · intro hne
      rw [revenue_growth, h0, h1]
      simp [hne]
    · intro hz
      subst hz
      rw [revenue_growth, h1]
      simp
  · intro h1
    rw [revenue_growth, h1]
    simp
  · intro cf cfs rt rts qt qts h1
    rw [fetch_main_company_financials, revenue_growth, h1]
    simp

/-- Witness for C3_revenue_growth_cases: revenue 110 after 100 gives 10%
growth; a present zero prior revenue raises, also through
fetch_main_company_financials. -/
theorem C3_revenue_growth_cases_witness :
    revenue_growth [{ revenue := some 110 }, { revenue := some 100 }] =
      .ok ((110 - 100) / 100 * 100) ∧
    revenue_growth [{ revenue := some 80 }, { revenue := some 0 }] =
      .error () ∧
    revenue_growth [{ revenue := some 110 }] = .ok 0 ∧
    fetch_main_company_financials
        [{ revenue := some 80 }, { revenue := some 0 }]
        [{ freeCashFlow := some 5 }]
        [{ netProfitMarginTTM := some 1, returnOnEquityTTM := some 1,
           debtEquityRatioTTM := some 1, currentRatioTTM := some 1 }]
        [{ eps := some 1, pe := some 1 }] = .error () :=
  ⟨((C3_revenue_growth_cases { revenue := some 110 }
        { revenue := some 100 } []).1 110 100 rfl rfl).1 (by norm_num),
    ((C3_revenue_growth_cases { revenue := some 80 }
        { revenue := some 0 } []).1 80 0 rfl rfl).2 rfl,
    (C3_revenue_growth_cases { revenue := some 110 }
        { revenue := some 0 } []).2.2.1 { revenue := some 110 },
    (C3_revenue_growth_cases { revenue := some 80 }
        { revenue := some 0 } []).2.2.2.2 { freeCashFlow := some 5 } []
      { netProfitMarginTTM := some 1, returnOnEquityTTM := some 1,
        debtEquityRatioTTM := some 1, currentRatioTTM := some 1 } []
      { eps := some 1, pe := some 1 } [] rfl⟩

/-! ## Orchestrator (run_financial_analysis, src/functions_NEW.py lines
316-369)

The callees that perform I/O are modelled by the values they deliver for
the analysed symbol: the validator's verdict, the result of
fetch_main_company_financials (an Except, since that computation can
raise, e.g. ZeroDivisionError per C3 — a raise is caught by the
orchestrator's try/except), the resolved peer symbols, and the upstream
quote/ratio data feeding fetch_peer_financials_batch.  The second
component of the result collects the categories of the log entries the
source writes on the taken path. -/

/-- Environment of one run_financial_analysis call. -/
structure AnalysisEnv where
  validSymbol : Bool
  companyData : Except Unit (Option Row)
  peers : List String
  upstream : String → Option (Quote × RatioTTM)

/-- Numeric view of a peer record as the scoring DataFrame sees it.
Records reaching the scoring step always have all 8 fields present (the
batch keeps only records whose 6 required fields are non-null, and the
backfill fills the remaining two), so the 0 defaults never fire there. -/
def peerRowD (p : PeerRecord) : Row where
  revenueGrowth := p.revenueGrowth.getD 0
  netProfitMargin := p.netProfitMargin.getD 0
  roe := p.roe.getD 0
  debtToEquity := p.debtToEquity.getD 0
  freeCashFlow := p.freeCashFlow.getD 0
  eps := p.eps.getD 0
  peR := p.peR.getD 0
  currentR := p.currentR.getD 0

lemma batch_mem_complete (upstream : String → Option (Quote × RatioTTM)) :
    ∀ (syms : List String) (p : PeerRecord),
      p ∈ fetch_peer_financials_batch upstream syms →
      missing_fields p = [] := by
  intro syms
  induction syms with
  | nil => intro p hp; simp [fetch_peer_financials_batch] at hp
  | cons s rest ih =>
      intro p hp
      rw [fetch_peer_financials_batch] at hp
      by_cases hdot : s.data.contains '.' = true
      · rw [if_pos hdot] at hp; exact ih p hp
      · rw [if_neg hdot] at hp
        cases hup : upstream s with
        | none => rw [hup] at hp; exact ih p hp
        | some qr =>
            obtain ⟨q, r⟩ := qr
            rw [hup] at hp
            dsimp only at hp
            by_cases hmf : missing_fields (buildPeerData q r) = []
            · rw [if_pos hmf] at hp
              rcases List.mem_cons.mp hp with h | h
              · rw [h]; exact hmf
              · exact ih p h
            · rw [if_neg hmf] at hp; exact ih p hp

/-- run_financial_analysis(symbol): validate, fetch the focal company's
record, resolve peers, fetch peer records, backfill, score; every failure
path (and any raised fault, via the surrounding try/except) produces None
together with a log entry, and only a successful scoring produces a
value. -/
def run_financial_analysis (env : AnalysisEnv) : Option ℚ × List String :=
  if env.validSymbol = false then (none, ["validation"])
  else
    match env.companyData with
    | .error _ => (none, ["analysis"])
    | .ok none => (none, ["data_fetch"])
    | .ok (some c) =>
        if env.peers.isEmpty then (none, ["data_fetch"])
        else if (fetch_peer_financials_batch env.upstream env.peers).isEmpty
        then (none, ["data_fetch"])
        else
          match calculate_financial_score c
              ((backfillPeers c
                (fetch_peer_financials_batch env.upstream env.peers)).map
                peerRowD) with
          | .ok s => (some s, [])
          | .error _ => (none, ["analysis"])

/-- C9: run_financial_analysis never propagates a raised fault: an invalid
symbol, missing company data (or a fault raised while computing it), an
empty peer set — in particular a symbol with no resolvable sector peers —
an empty peer-metrics list, and a fault raised by scoring each yield None
together with a log entry; in every case the run either returns None
having logged, or returns a score.  (In this typed embedding the
scoring-fault branch is defensive: with well-formed records, scoring only
raises on an empty peer table, which the earlier guard already
intercepts.) -/
theorem C9_orchestrator_null_on_failure (env : AnalysisEnv) :
    (env.validSymbol = false →
      run_financial_analysis env = (none, ["validation"])) ∧
    (env.validSymbol = true → env.companyData = .error () →
      run_financial_analysis env = (none, ["analysis"])) ∧
    (env.validSymbol = true → env.companyData = .ok none →
      run_financial_analysis env = (none, ["data_fetch"])) ∧
    (∀ c, env.validSymbol = true → env.companyData = .ok (some c) →
      env.peers = [] →
      run_financial_analysis env = (none, ["data_fetch"])) ∧
    (∀ c, env.validSymbol = true → env.companyData = .ok (some c) →
      fetch_peer_financials_batch env.upstream env.peers = [] →
      run_financial_analysis env = (none, ["data_fetch"])) ∧
    (∀ c e, env.validSymbol = true → env.companyData = .ok (some c) →
      fetch_peer_financials_batch env.upstream env.peers ≠ [] →
      calculate_financial_score c
        ((backfillPeers c
          (fetch_peer_financials_batch env.upstream env.peers)).map
          peerRowD) = .error e →
      run_financial_analysis env = (none, ["analysis"])) ∧
    (((run_financial_analysis env).1 = none ∧
        (run_financial_analysis env).2 ≠ []) ∨
      ∃ s, (run_financial_analysis env).1 = some s ∧
        (run_financial_analysis env).2 = []) := by
  refine ⟨?_, ?_, ?_, ?_, ?_, ?_, ?_⟩
  · intro h; simp [run_financial_analysis, h]
  · intro hv hc; simp [run_financial_analysis, hv, hc]
  · intro hv hc; simp [run_financial_analysis, hv, hc]
  · intro c hv hc hp; simp [run_financial_analysis, hv, hc, hp]
  · intro c hv hc hb
    by_cases hp : env.peers.isEmpty
    · simp [run_financial_analysis, hv, hc, hp]
    · simp [run_financial_analysis, hv, hc, hp, hb]
  · intro c e hv hc hbne hcalc
    by_cases hp : env.peers.isEmpty
    · exfalso
      apply hbne
      rw [List.isEmpty_iff.mp hp]
      rfl
    · simp [run_financial_analysis, hv, hc, hp, hbne, hcalc]
  · cases hv : env.validSymbol with
    | false => left; simp [run_financial_analysis, hv]
    | true =>
        cases hc : env.companyData with
        | error u => left; simp [run_financial_analysis, hv, hc]
        | ok oc =>
            cases oc with
            | none => left; simp [run_financial_analysis, hv, hc]
            | some c =>
                by_cases hp : env.peers.isEmpty
                · left; simp [run_financial_analysis, hv, hc, hp]
                · by_cases hb :
                    (fetch_peer_financials_batch env.upstream
                      env.peers).isEmpty
                  · left; simp [run_financial_analysis, hv, hc, hp, hb]
                  · cases hcalc : calculate_financial_score c
                        ((backfillPeers c
                          (fetch_peer_financials_batch env.upstream
                            env.peers)).map peerRowD) with
                    | error u =>
                        left
                        simp [run_financial_analysis, hv, hc, hp, hb, hcalc]
                    | ok s =>
                        right
                        refine ⟨s, ?_⟩
                        simp [run_financial_analysis, hv, hc, hp, hb, hcalc]

/-- Witness for C9_orchestrator_null_on_failure: a valid symbol whose
company record is present but whose sector yields no peers returns None
(with a data_fetch log entry), not a fault. -/
theorem C9_orchestrator_null_on_failure_witness :
    run_financial_analysis
      { validSymbol := true,
        companyData := .ok (some
          { revenueGrowth := 10, netProfitMargin := 20, roe := 15,
            debtToEquity := 1, freeCashFlow := 100, eps := 2, peR := 15,
            currentR := 2 }),
        peers := [],
        upstream := fun _ => none } = (none, ["data_fetch"]) :=
  (C9_orchestrator_null_on_failure
    { validSymbol := true,
      companyData := .ok (some
        { revenueGrowth := 10, netProfitMargin := 20, roe := 15,
          debtToEquity := 1, freeCashFlow := 100, eps := 2, peR := 15,
          currentR := 2 }),
      peers := [],
      upstream := fun _ => none }).2.2.2.1
    { revenueGrowth := 10, netProfitMargin := 20, roe := 15,
      debtToEquity := 1, freeCashFlow := 100, eps := 2, peR := 15,
      currentR := 2 } rfl rfl rfl
